import Mathlib

/-!
# Verification of the Health-to-Earn (Strava) cloud functions

Shallow embedding of `src/src/services/WalletService.ts`, the Firebase
cloud-functions part of the plugin: the OAuth link flow (`authorize`,
`link`, `status`), the Strava webhook (`webhookSubscriptionHandler` for
GET subscription verification, `webhookEventHandler` for POST event
ingestion), and the `payout` sweeper.

External collaborators (address validation from the dHealth SDK, the
Strava token-exchange endpoint, the Firestore document store and the
clock) are passed in as explicit parameters / oracles, so the handlers
themselves are pure functions of their inputs.
-/

namespace HealthToEarn

/-- Decimal rendering of a natural number, most significant digit
first; models the JS template-literal / `'' + n` conversion used for
document ids (`users/${owner_id}`, `'' + athlete.id`,
`${formattedDate}-${athleteId}`). -/
def natToString (n : Nat) : String := Nat.repr n

/-- Numeric value of a decimal digit character. -/
def charVal (c : Char) : Nat := c.toNat - '0'.toNat

/-- Value of a most-significant-first decimal digit string; a left
inverse of `natToString` used to prove the rendering injective. -/
def decVal (l : List Char) : Nat := l.foldl (fun a c => 10 * a + charVal c) 0

/-- An HTTP response body as the handlers produce it: `sendStatus`
gives an empty body, `send` a text body, `json` a JS-object body whose
field values may be `undefined` (`none`), `redirect` a Location. -/
inductive RespBody where
  | empty : RespBody
  | text (s : String) : RespBody
  | json (fields : List (String × Option String)) : RespBody
  | location (url : String) : RespBody
  deriving DecidableEq, Repr

/-- An HTTP response: status code plus body. -/
structure HttpResponse where
  status : Nat
  body : RespBody
  deriving DecidableEq, Repr

/-- `response.sendStatus(n)`. -/
def sendStatus (n : Nat) : HttpResponse := ⟨n, .empty⟩

/-- The GET query of the webhook endpoint; each field is `none` when
the parameter is absent from the query string (`'k' in data` false). -/
structure SubQuery where
  hubMode : Option String
  hubVerifyToken : Option String
  hubChallenge : Option String
  deriving DecidableEq, Repr

/-- A record of the `users` collection (one per linked athlete),
keyed by the decimal athlete id, exactly the shape written by `link`. -/
structure LinkRecord where
  address : String
  athleteId : Nat
  accessToken : String
  refreshToken : String
  accessExpiresAt : Nat
  linkedAt : Nat
  deriving DecidableEq, Repr

/-- A record of the `rewards` collection (at most one per athlete per
day), exactly the shape written by `webhookEventHandler`. -/
structure RewardRecord where
  address : String
  athleteId : Nat
  activityId : Nat
  isProcessed : Bool
  isConfirmed : Bool
  rewardDay : String
  activityAt : String
  deriving DecidableEq, Repr

/-- The Firestore database: two collections of documents, each an
association list from document id to document, one entry per id. -/
structure Database where
  users : List (String × LinkRecord)
  rewards : List (String × RewardRecord)
  deriving DecidableEq, Repr

/-- The relevant part of a successful Strava `/oauth/token` response:
`res.data.athlete.id`, `res.data.access_token`, `res.data.refresh_token`
and `res.data.expires_at`. -/
structure TokenResponse where
  athleteId : Nat
  accessToken : String
  refreshToken : String
  expiresAt : Nat
  deriving DecidableEq, Repr

/-- One call to an external collaborator (store or provider network),
recorded in the order the handler issues them. -/
inductive CollabCall where
  | usersQueryByAddress (address : String) : CollabCall
  | oauthTokenExchange (code : String) : CollabCall
  | usersSetDoc (docId : String) (record : LinkRecord) : CollabCall
  deriving DecidableEq, Repr

/-- The environment configuration `functions.config().strava`. -/
structure StravaConf where
  clientId : String
  clientSecret : String
  oauthUrl : String
  webhookUrl : String
  verifyToken : String
  deriving DecidableEq, Repr

/-- Query of the `authorize` endpoint. -/
structure AuthQuery where
  dhealthAddress : Option String
  deriving DecidableEq, Repr

/-- `authorize` (WalletService.ts lines 122-151): requires
`dhealth.address` (400 if absent), validates it via the SDK address
parser (400 on failure), then redirects (301) to the Strava OAuth
authorization URL with the address forwarded as `state`. The address
validator and `encodeURIComponent` are external collaborator functions
passed as parameters; no store or network call is ever made, so the
call log is always empty. -/
def authorize (validateOk : String → Bool) (encodeURIComponent : String → String)
    (conf : StravaConf) (q : AuthQuery) : HttpResponse × List CollabCall :=
  match q.dhealthAddress with
  | none => (sendStatus 400, [])
  | some addr =>
    if ¬ validateOk addr then (sendStatus 400, [])
    else
      (⟨301, .location ("https://www.strava.com/oauth/authorize?"
        ++ "client_id=" ++ conf.clientId
        ++ "&response_type=code"
        ++ "&approval_prompt=auto"
        ++ "&scope=activity:read"
        ++ "&redirect_uri=" ++ encodeURIComponent conf.oauthUrl
        ++ "&state=" ++ addr)⟩, [])

/-- Query of the `link` OAuth callback. -/
structure LinkQuery where
  error : Option String
  code : Option String
  scope : Option String
  state : Option String
  deriving DecidableEq, Repr

/-- The `users` document written by `link` on a successful token
exchange: address = the validated `state`, tokens and expiry from the
exchange response, the current epoch-millisecond time as `linkedAt`. -/
def mkLinkRecord (address : String) (tok : TokenResponse) (now : Nat) : LinkRecord :=
  { address := address, athleteId := tok.athleteId, accessToken := tok.accessToken,
    refreshToken := tok.refreshToken, accessExpiresAt := tok.expiresAt, linkedAt := now }

/-- `link` (WalletService.ts lines 167-229): 403 when the provider
signals `error=access_denied`; 400 when any of `code`/`scope`/`state`
is missing; 400 when `state` fails address validation; otherwise posts
the code to the provider token endpoint (`exchangeToken` oracle): on
exchange failure 400, else merge-writes the LinkRecord into
`users/{athleteId}` (`usersSet` oracle): on write failure 500, on
success 200. The second component logs the collaborator calls made. -/
def link (validateOk : String → Bool)
    (exchangeToken : String → Except String TokenResponse)
    (usersSet : String → LinkRecord → Except String Unit)
    (now : Nat) (q : LinkQuery) : HttpResponse × List CollabCall :=
  if q.error = some "access_denied" then (sendStatus 403, [])
  else
    match q.code, q.scope, q.state with
    | some code, some _scope, some state =>
      if ¬ validateOk state then (sendStatus 400, [])
      else
        match exchangeToken code with
        | .error _ => (sendStatus 400, [.oauthTokenExchange code])
        | .ok tok =>
          let record := mkLinkRecord state tok now
          let docId := natToString tok.athleteId
          match usersSet docId record with
          | .error _ => (sendStatus 500, [.oauthTokenExchange code, .usersSetDoc docId record])
          | .ok _ => (sendStatus 200, [.oauthTokenExchange code, .usersSetDoc docId record])
    | _, _, _ => (sendStatus 400, [])

/-- A JS value as far as the status handler inspects one. -/
inductive JsVal where
  | undef : JsVal
  | bool (b : Bool) : JsVal
  | num (n : Int) : JsVal
  deriving DecidableEq, Repr

/-- JS truthiness of a value. -/
def JsVal.truthy : JsVal → Bool
  | .undef => false
  | .bool b => b
  | .num n => n != 0

/-- JS property read on an object: `undefined` for an absent field. -/
def jsGet (o : List (String × JsVal)) (k : String) : JsVal :=
  (List.lookup k o).getD JsVal.undef

/-- The JS-object fields of a Firestore `QuerySnapshot`, the result of
`collection.where(...).get()`: it carries `empty` and `size` (plus the
doc list, never read by the status handler). A `QuerySnapshot` has no
`exists` property — `exists` belongs to `DocumentSnapshot` — so reading
`snapshot.exists` yields JS `undefined`. -/
def querySnapshotObj (results : List LinkRecord) : List (String × JsVal) :=
  [("empty", .bool results.isEmpty), ("size", .num results.length)]

/-- The documents matched by `users.where('address', '==', addr)`. -/
def usersWhereAddressEq (db : Database) (addr : String) : List LinkRecord :=
  (db.users.filter (fun p => p.2.address = addr)).map Prod.snd

/-- Query of the `status` endpoint. -/
structure StatusQuery where
  dhealthAddress : Option String
  deriving DecidableEq, Repr

/-- `status` (WalletService.ts lines 299-336): 403 for non-GET;
requires `dhealth.address` (400 if absent), validates it (400 on
failure); then runs the `users` where-query (500 when the store fails)
and tests `user.exists` on the resulting query snapshot — an absent
property, hence always falsy — answering 200 when truthy, 404
otherwise. -/
def status (validateOk : String → Bool) (method : String)
    (db : Database) (storeFails : Bool) (q : StatusQuery) : HttpResponse × List CollabCall :=
  if method ≠ "GET" then (sendStatus 403, [])
  else
    match q.dhealthAddress with
    | none => (sendStatus 400, [])
    | some addr =>
      if ¬ validateOk addr then (sendStatus 400, [])
      else if storeFails then (sendStatus 500, [.usersQueryByAddress addr])
      else
        let user := querySnapshotObj (usersWhereAddressEq db addr)
        if (jsGet user "exists").truthy then (sendStatus 200, [.usersQueryByAddress addr])
        else (sendStatus 404, [.usersQueryByAddress addr])

/-- `webhookSubscriptionHandler` (WalletService.ts lines 447-471):
requires `hub.mode` and `hub.verify_token` present (else 400); rejects
with 401 unless `hub.mode == "subscribe"` and `hub.verify_token`
matches the configured secret; on success answers 200 with JSON body
`{'hub.challenge': data['hub.challenge']}` — the challenge value is
read without any presence check. -/
def webhookSubscriptionHandler (verifyToken : String) (q : SubQuery) : HttpResponse :=
  match q.hubMode, q.hubVerifyToken with
  | some mode, some tok =>
    if mode ≠ "subscribe" ∨ tok ≠ verifyToken then sendStatus 401
    else ⟨200, .json [("hub.challenge", q.hubChallenge)]⟩
  | none, _ => sendStatus 400
  | _, none => sendStatus 400

/-- A calendar timestamp as the handler's `new Date()` observes it
(the clock is an external input to the embedding). -/
structure DateTime where
  year : Nat
  month : Nat
  day : Nat
  hour : Nat
  minute : Nat
  second : Nat
  utcOffset : String
  deriving DecidableEq, Repr

/-- Two-digit zero padding, as moment's `MM`/`DD`/`HH`/`mm`/`ss`. -/
def pad2 (n : Nat) : String :=
  if n < 10 then "0" ++ natToString n else natToString n

/-- Four-digit zero padding, as moment's `YYYY`. -/
def pad4 (n : Nat) : String :=
  if n < 10 then "000" ++ natToString n
  else if n < 100 then "00" ++ natToString n
  else if n < 1000 then "0" ++ natToString n
  else natToString n

/-- `moment(rewardedDate).format('YYYYMMDD')`. -/
def formatYYYYMMDD (d : DateTime) : String :=
  pad4 d.year ++ pad2 d.month ++ pad2 d.day

/-- `moment(rewardedDate).format('YYYY-MM-DD HH:mm:ss Z')`. -/
def formatActivityAt (d : DateTime) : String :=
  pad4 d.year ++ "-" ++ pad2 d.month ++ "-" ++ pad2 d.day ++ " "
    ++ pad2 d.hour ++ ":" ++ pad2 d.minute ++ ":" ++ pad2 d.second ++ " " ++ d.utcOffset

/-- The deterministic rewards document id
`` `${formattedDate}-${athleteId}` `` (e.g. `"20211103-94380856"`). -/
def rewardsId (formattedDate : String) (athleteId : Nat) : String :=
  formattedDate ++ "-" ++ natToString athleteId

/-- The JSON body of a webhook POST event; each field is `none` when
absent (`'k' in data` false). -/
structure EventBody where
  object_type : Option String
  object_id : Option Nat
  aspect_type : Option String
  owner_id : Option Nat
  deriving DecidableEq, Repr

/-- Document lookup by id in a collection (`DATABASE.doc('c/id').get()`
resolving to an existing document or to an absent one). -/
def getDoc {α : Type} (k : String) : List (String × α) → Option α
  | [] => none
  | (k', v) :: t => if k = k' then some v else getDoc k t

/-- The store operations the webhook event handler performs, over an
abstract store state `σ`; any of them may throw (`Except.error`), in
which case the state at throw time is carried in the error. -/
structure WebhookStore (σ : Type) where
  getUser : σ → Nat → Except (String × σ) (σ × Option LinkRecord)
  getReward : σ → String → Except (String × σ) (σ × Option RewardRecord)
  setReward : σ → String → RewardRecord → Except (String × σ) σ

/-- The `rewards` document written by the webhook event handler:
address and athlete id copied from the resolved user record, activity
id from the event, both flags false, day string and timestamp from the
current date. -/
def mkRewardRecord (address : String) (athleteId activityId : Nat)
    (now : DateTime) : RewardRecord :=
  { address := address, athleteId := athleteId, activityId := activityId,
    isProcessed := false, isConfirmed := false,
    rewardDay := formatYYYYMMDD now, activityAt := formatActivityAt now }

/-- The `try` block of `webhookEventHandler` (WalletService.ts lines
504-549): resolve the user by `users/${owner_id}` (unknown → ignored),
build the deterministic rewards id from today's date and the resolved
athlete id, bail out if a rewards entry already exists, else write the
new entry and answer `EVENT_RECEIVED`. -/
def webhookEventTry {σ : Type} (store : WebhookStore σ) (now : DateTime)
    (object_id owner_id : Nat) (s : σ) : Except (String × σ) (σ × HttpResponse) :=
  match store.getUser s owner_id with
  | .error err => .error err
  | .ok (s1, none) => .ok (s1, ⟨200, .text "EVENT_IGNORED"⟩)
  | .ok (s1, some user) =>
    match store.getReward s1 (rewardsId (formatYYYYMMDD now) user.athleteId) with
    | .error err => .error err
    | .ok (s2, some _) => .ok (s2, ⟨200, .text "EVENT_IGNORED"⟩)
    | .ok (s2, none) =>
      match store.setReward s2 (rewardsId (formatYYYYMMDD now) user.athleteId)
          (mkRewardRecord user.address user.athleteId object_id now) with
      | .error err => .error err
      | .ok s3 => .ok (s3, ⟨200, .text "EVENT_RECEIVED"⟩)

/-- `webhookEventHandler` (WalletService.ts lines 484-556): 400 when
any of `object_type`/`object_id`/`aspect_type`/`owner_id` is absent;
`EVENT_IGNORED`/200 for anything but a new activity; otherwise the
`try` block runs, and any exception it throws is swallowed into
`EVENT_IGNORED`/200 (webhook responses must be 200, risk of ban). -/
def webhookEventHandler {σ : Type} (store : WebhookStore σ) (now : DateTime)
    (data : EventBody) (s : σ) : σ × HttpResponse :=
  match data.object_type, data.object_id, data.aspect_type, data.owner_id with
  | some object_type, some object_id, some aspect_type, some owner_id =>
    if object_type ≠ "activity" ∨ aspect_type ≠ "create" then
      (s, ⟨200, .text "EVENT_IGNORED"⟩)
    else
      match webhookEventTry store now object_id owner_id s with
      | .ok r => r
      | .error (_, s1) => (s1, ⟨200, .text "EVENT_IGNORED"⟩)
  | _, _, _, _ => (s, sendStatus 400)

/-- Firestore `collection.doc(k).set(v, {merge: true})` on a store
whose document ids are unique: replaces the existing document `k` in
place or creates it (all fields are supplied at every call site, so
merging a present document equals replacing it). -/
def setDocIn {α : Type} (k : String) (v : α) : List (String × α) → List (String × α)
  | [] => [(k, v)]
  | (k', v') :: t => if k = k' then (k, v) :: t else (k', v') :: setDocIn k v t

/-- `collection('rewards').doc(k).set(r, {merge: true})`. -/
def dbSetReward (db : Database) (k : String) (r : RewardRecord) : Database :=
  { db with rewards := setDocIn k r db.rewards }

/-- `collection('users').doc(k).set(r, {merge: true})`. -/
def dbSetUser (db : Database) (k : String) (r : LinkRecord) : Database :=
  { db with users := setDocIn k r db.users }

/-- The real (non-throwing) Firestore-backed store: state is the
database plus a log of the reward writes performed, in order. -/
def dbStore : WebhookStore (Database × List (String × RewardRecord)) where
  getUser := fun s id => .ok (s, getDoc (natToString id) s.1.users)
  getReward := fun s k => .ok (s, getDoc k s.1.rewards)
  setReward := fun s k r => .ok (dbSetReward s.1 k r, s.2 ++ [(k, r)])

/-- Sequential delivery of webhook POST events against the database
store, all observed at the same clock reading `now`: the final store
state and the list of responses, in order. -/
def runEvents (now : DateTime) (s : Database × List (String × RewardRecord)) :
    List EventBody → (Database × List (String × RewardRecord)) × List HttpResponse
  | [] => (s, [])
  | e :: es =>
    let step := webhookEventHandler dbStore now e s
    let rest := runEvents now step.1 es
    (rest.1, step.2 :: rest.2)

/-- The `payout` sweep's selection query (WalletService.ts lines
420-422): all rewards with `isProcessed == false`. -/
def unprocessedRewards (db : Database) : List (String × RewardRecord) :=
  db.rewards.filter (fun p => p.2.isProcessed = false)

/-- `payout` as implemented (lines 418-432): runs the selection query,
bails out on an empty snapshot, otherwise only logs the count — the
payout execution is the marked extension point (`//XXX proceed to
payout`); no mutation is performed. Returns the snapshot it would log. -/
def payoutAsImplemented (db : Database) : Option (List (String × RewardRecord)) :=
  let snapshot := unprocessedRewards db
  if snapshot.isEmpty then none else some snapshot

/-- Modelled from the spec: the payout execution of the PayoutSweeper is
missing from the source (`payout` only selects and logs, see
`payoutAsImplemented`). Per spec §4.4 the sweeper attempts payout once
for each selected unprocessed record and flips `isProcessed` to true
only after a successful payout confirmation (`payoutOk r = true`),
never before. -/
def sweepOne (payoutOk : RewardRecord → Bool) (r : RewardRecord) : RewardRecord :=
  if r.isProcessed = false ∧ payoutOk r = true then { r with isProcessed := true } else r

/-- Modelled from the spec: one full sweeper run applies `sweepOne` to
every record of the rewards collection (the selection query picks the
unprocessed ones; processed records are untouched). -/
def sweepRun (payoutOk : RewardRecord → Bool) (db : Database) : Database :=
  { db with rewards := db.rewards.map (fun p => (p.1, sweepOne payoutOk p.2)) }

/-- One operation of the system that can touch the stored collections:
a webhook POST event, a link-callback user write, or a sweeper run. -/
inductive SysOp where
  | webhookEvent (now : DateTime) (data : EventBody) : SysOp
  | linkWrite (docId : String) (record : LinkRecord) : SysOp
  | sweep (payoutOk : RewardRecord → Bool) : SysOp

/-- Effect of one system operation on the database. -/
def sysStep (db : Database) : SysOp → Database
  | .webhookEvent now data => (webhookEventHandler dbStore now data (db, [])).1.1
  | .linkWrite docId record => dbSetUser db docId record
  | .sweep payoutOk => sweepRun payoutOk db

/-- A system trace: the database after a sequence of operations. -/
def runSys (db : Database) (ops : List SysOp) : Database :=
  ops.foldl sysStep db

end HealthToEarn

namespace HealthToEarn

theorem getDoc_setDocIn {α : Type} (k j : String) (v : α) (l : List (String × α)) :
    getDoc j (setDocIn k v l) = if j = k then some v else getDoc j l := by
  induction l with
  | nil => by_cases h : j = k <;> simp [getDoc, setDocIn, h]
  | cons a t ih =>
    obtain ⟨k', v'⟩ := a
    by_cases h1 : k = k'
    · subst h1
      by_cases h2 : j = k <;> simp [getDoc, setDocIn, h2, ih]
    · by_cases h2 : j = k'
      · subst h2
        have h3 : ¬ j = k := fun hc => h1 hc.symm
        simp [getDoc, setDocIn, h1, h3, ih]
      · by_cases h3 : j = k
        · subst h3
          simp [getDoc, setDocIn, h1, h2, ih]
        · simp [getDoc, setDocIn, h1, h2, h3, ih]

theorem getDoc_dbSetReward (db : Database) (k : String) (r : RewardRecord) (j : String) :
    getDoc j (dbSetReward db k r).rewards =
      if j = k then some r else getDoc j db.rewards := by
  simp [dbSetReward, getDoc_setDocIn]

theorem users_dbSetReward (db : Database) (k : String) (r : RewardRecord) :
    (dbSetReward db k r).users = db.users := rfl

theorem getDoc_map_snd {α : Type} (g : α → α) (k : String) (l : List (String × α)) :
    getDoc k (l.map fun p => (p.1, g p.2)) = (getDoc k l).map g := by
  induction l with
  | nil => simp [getDoc]
  | cons a t ih =>
    obtain ⟨k', v⟩ := a
    by_cases h : k = k' <;> simp [getDoc, h, ih]

theorem webhookEventTry_ok_status {σ : Type} (store : WebhookStore σ) (now : DateTime)
    (oid own : Nat) (s s' : σ) (r : HttpResponse)
    (h : webhookEventTry store now oid own s = .ok (s', r)) : r.status = 200 := by
  unfold webhookEventTry at h
  split at h
  · exact Except.noConfusion h
  · obtain ⟨-, h2⟩ := Prod.mk.inj (Except.ok.inj h)
    rw [← h2]
  · split at h
    · exact Except.noConfusion h
    · obtain ⟨-, h2⟩ := Prod.mk.inj (Except.ok.inj h)
      rw [← h2]
    · split at h
      · exact Except.noConfusion h
      · obtain ⟨-, h2⟩ := Prod.mk.inj (Except.ok.inj h)
        rw [← h2]

theorem webhookEventHandler_db_unknown_user (now : DateTime)
    (db : Database) (log : List (String × RewardRecord)) (oid own : Nat)
    (hu : getDoc (natToString own) db.users = none) :
    webhookEventHandler dbStore now ⟨some "activity", some oid, some "create", some own⟩
        (db, log) = ((db, log), ⟨200, .text "EVENT_IGNORED"⟩) := by
  simp [webhookEventHandler, webhookEventTry, dbStore, hu]

theorem webhookEventHandler_db_existing (now : DateTime)
    (db : Database) (log : List (String × RewardRecord)) (oid own : Nat)
    (user : LinkRecord) (r0 : RewardRecord)
    (hu : getDoc (natToString own) db.users = some user)
    (hr : getDoc (rewardsId (formatYYYYMMDD now) user.athleteId) db.rewards = some r0) :
    webhookEventHandler dbStore now ⟨some "activity", some oid, some "create", some own⟩
        (db, log) = ((db, log), ⟨200, .text "EVENT_IGNORED"⟩) := by
  simp [webhookEventHandler, webhookEventTry, dbStore, hu, hr]

theorem webhookEventHandler_db_creates (now : DateTime)
    (db : Database) (log : List (String × RewardRecord)) (oid own : Nat)
    (user : LinkRecord)
    (hu : getDoc (natToString own) db.users = some user)
    (hr : getDoc (rewardsId (formatYYYYMMDD now) user.athleteId) db.rewards = none) :
    webhookEventHandler dbStore now ⟨some "activity", some oid, some "create", some own⟩
        (db, log) =
      ((dbSetReward db (rewardsId (formatYYYYMMDD now) user.athleteId)
          (mkRewardRecord user.address user.athleteId oid now),
        log ++ [(rewardsId (formatYYYYMMDD now) user.athleteId,
          mkRewardRecord user.address user.athleteId oid now)]),
       ⟨200, .text "EVENT_RECEIVED"⟩) := by
  simp [webhookEventHandler, webhookEventTry, dbStore, hu, hr]

theorem count_setDocIn_of_absent {α : Type} (k : String) (v : α) (l : List (String × α))
    (h : getDoc k l = none) :
    ((setDocIn k v l).filter (fun p => p.1 = k)).length = 1 := by
  induction l with
  | nil => simp [setDocIn]
  | cons a t ih =>
    obtain ⟨k', v'⟩ := a
    by_cases hk : k = k'
    · simp [getDoc, hk] at h
    · simp only [getDoc, hk, if_neg] at h
      simp [setDocIn, hk, List.filter_cons, show ¬ (k' = k) from fun hc => hk hc.symm, ih h]

theorem runEvents_all_ignored (now : DateTime) (db : Database)
    (log : List (String × RewardRecord)) (own : Nat) (user : LinkRecord) (r0 : RewardRecord)
    (hu : getDoc (natToString own) db.users = some user)
    (hr : getDoc (rewardsId (formatYYYYMMDD now) user.athleteId) db.rewards = some r0)
    (es : List EventBody) :
    (∀ ev ∈ es, ev.object_type = some "activity" ∧ ev.aspect_type = some "create" ∧
      ev.owner_id = some own ∧ ∃ oid, ev.object_id = some oid) →
    runEvents now (db, log) es =
      ((db, log), List.replicate es.length ⟨200, RespBody.text "EVENT_IGNORED"⟩) := by
  induction es with
  | nil => intro _; rfl
  | cons ev t ih =>
    intro hes
    obtain ⟨hot, hasp, hown, oid, hoid⟩ := hes ev (List.mem_cons_self ev t)
    obtain ⟨eot, eoid, easp, eown⟩ := ev
    replace hot : eot = some "activity" := hot
    replace hasp : easp = some "create" := hasp
    replace hown : eown = some own := hown
    replace hoid : eoid = some oid := hoid
    subst hot; subst hasp; subst hown; subst hoid
    have hstep := webhookEventHandler_db_existing now db log oid own user r0 hu hr
    have iht := ih (fun e he => hes e (List.mem_cons_of_mem _ he))
    simp [runEvents, hstep, iht, List.replicate_succ]

/-- C1: a sequence of webhook activity-create events with the same
owner (resolving to a known user record), delivered sequentially within
the same calendar day and starting with no reward for the day's key:
afterwards the store holds exactly one RewardRecord under the
`(rewardDay, athleteId)` key — written by the first event, whose
activity id it carries — the write log holds exactly that one write,
the first event is answered `EVENT_RECEIVED` and every later event
finds the record present and is answered 200 `EVENT_IGNORED` without
writing. -/
theorem idempotent_reward_creation (now : DateTime) (db : Database) (own oid0 : Nat)
    (user : LinkRecord) (key : String) (rec0 : RewardRecord) (es : List EventBody)
    (hu : getDoc (natToString own) db.users = some user)
    (hkey : key = rewardsId (formatYYYYMMDD now) user.athleteId)
    (hrec : rec0 = mkRewardRecord user.address user.athleteId oid0 now)
    (hr : getDoc key db.rewards = none)
    (hes : ∀ ev ∈ es, ev.object_type = some "activity" ∧ ev.aspect_type = some "create" ∧
      ev.owner_id = some own ∧ ∃ oid, ev.object_id = some oid) :
    runEvents now (db, []) (⟨some "activity", some oid0, some "create", some own⟩ :: es) =
      ((dbSetReward db key rec0, [(key, rec0)]),
        ⟨200, RespBody.text "EVENT_RECEIVED"⟩ ::
          List.replicate es.length ⟨200, RespBody.text "EVENT_IGNORED"⟩) ∧
    ((runEvents now (db, [])
        (⟨some "activity", some oid0, some "create", some own⟩ :: es)).1.1.rewards.filter
          (fun p => p.1 = key)).length = 1 := by
  subst hkey; subst hrec
  have hstep := webhookEventHandler_db_creates now db [] oid0 own user hu hr
  have hu2 : getDoc (natToString own)
      (dbSetReward db (rewardsId (formatYYYYMMDD now) user.athleteId)
        (mkRewardRecord user.address user.athleteId oid0 now)).users = some user := hu
  have hr2 : getDoc (rewardsId (formatYYYYMMDD now) user.athleteId)
      (dbSetReward db (rewardsId (formatYYYYMMDD now) user.athleteId)
        (mkRewardRecord user.address user.athleteId oid0 now)).rewards =
      some (mkRewardRecord user.address user.athleteId oid0 now) := by
    rw [getDoc_dbSetReward]
    simp
  have hrest := runEvents_all_ignored now
    (dbSetReward db (rewardsId (formatYYYYMMDD now) user.athleteId)
      (mkRewardRecord user.address user.athleteId oid0 now))
    [(rewardsId (formatYYYYMMDD now) user.athleteId,
      mkRewardRecord user.address user.athleteId oid0 now)]
    own user (mkRewardRecord user.address user.athleteId oid0 now) hu2 hr2 es hes
  have hmain : runEvents now (db, [])
      (⟨some "activity", some oid0, some "create", some own⟩ :: es) =

      ((dbSetReward db (rewardsId (formatYYYYMMDD now) user.athleteId)
          (mkRewardRecord user.address user.athleteId oid0 now),
        [(rewardsId (formatYYYYMMDD now) user.athleteId,
          mkRewardRecord user.address user.athleteId oid0 now)]),
        ⟨200, RespBody.text "EVENT_RECEIVED"⟩ ::
          List.replicate es.length ⟨200, RespBody.text "EVENT_IGNORED"⟩) := by
    simp [runEvents, hstep, hrest]
  refine ⟨hmain, ?_⟩
  rw [hmain]
  exact count_setDocIn_of_absent _ _ _ hr

/-- C1 witness: two same-day activity-create events for athlete 7: one
record is created from the first event (activity 5), the second event
is ignored, and the key count is 1. -/
theorem idempotent_reward_creation_witness :
    runEvents ⟨2021, 11, 3, 1, 2, 3, "+00:00"⟩
        (⟨[("7", ⟨"ADDR", 7, "t", "r", 0, 0⟩)], []⟩, [])
        [⟨some "activity", some 5, some "create", some 7⟩,
         ⟨some "activity", some 6, some "create", some 7⟩] =
      ((dbSetReward ⟨[("7", ⟨"ADDR", 7, "t", "r", 0, 0⟩)], []⟩ "20211103-7"
          (mkRewardRecord "ADDR" 7 5 ⟨2021, 11, 3, 1, 2, 3, "+00:00"⟩),
        [("20211103-7", mkRewardRecord "ADDR" 7 5 ⟨2021, 11, 3, 1, 2, 3, "+00:00"⟩)]),
       [⟨200, RespBody.text "EVENT_RECEIVED"⟩, ⟨200, RespBody.text "EVENT_IGNORED"⟩]) :=
  (idempotent_reward_creation ⟨2021, 11, 3, 1, 2, 3, "+00:00"⟩
    ⟨[("7", ⟨"ADDR", 7, "t", "r", 0, 0⟩)], []⟩ 7 5 ⟨"ADDR", 7, "t", "r", 0, 0⟩
    "20211103-7" (mkRewardRecord "ADDR" 7 5 ⟨2021, 11, 3, 1, 2, 3, "+00:00"⟩)
    [⟨some "activity", some 6, some "create", some 7⟩]
    rfl rfl rfl rfl
    (by
      intro ev hev
      simp only [List.mem_singleton] at hev
      subst hev
      exact ⟨rfl, rfl, rfl, 6, rfl⟩)).1

theorem charVal_digitChar (d : Nat) (hd : d < 10) : charVal (Nat.digitChar d) = d := by
  interval_cases d <;> rfl

theorem decVal_foldl (l : List Char) (a : Nat) :
    l.foldl (fun a c => 10 * a + charVal c) a = a * 10 ^ l.length + decVal l := by
  induction l generalizing a with
  | nil => simp [decVal]
  | cons c t ih =>
    have hdv : decVal (c :: t) = charVal c * 10 ^ t.length + decVal t := by
      simp only [decVal, List.foldl]
      rw [ih (10 * 0 + charVal c)]
      simp [decVal]
    simp only [List.foldl]
    rw [ih (10 * a + charVal c), hdv, List.length_cons, pow_succ]
    ring

theorem toDigitsCore_decVal (fuel : Nat) : ∀ (n : Nat) (acc : List Char), n < fuel →
    decVal (Nat.toDigitsCore 10 fuel n acc) = n * 10 ^ acc.length + decVal acc := by
  induction fuel with
  | zero => exact fun n acc h => absurd h (Nat.not_lt_zero n)
  | succ f ih =>
    intro n acc h
    have h10 : n % 10 < 10 := Nat.mod_lt n (by norm_num)
    have hcons : decVal (Nat.digitChar (n % 10) :: acc) =
        (n % 10) * 10 ^ acc.length + decVal acc := by
      simp only [decVal, List.foldl]
      rw [decVal_foldl]
      simp [charVal_digitChar _ h10, decVal]
    by_cases hdiv : n / 10 = 0
    · have hn : n % 10 = n := by omega
      simp only [Nat.toDigitsCore, hdiv, if_true]
      rw [hcons, hn]
    · have hlt : n / 10 < f := by omega
      simp only [Nat.toDigitsCore, hdiv, if_false]
      rw [ih (n / 10) (Nat.digitChar (n % 10) :: acc) hlt, hcons, List.length_cons, pow_succ]
      have hnm : n / 10 * 10 + n % 10 = n := by omega
      calc n / 10 * (10 ^ acc.length * 10) + ((n % 10) * 10 ^ acc.length + decVal acc)
          = (n / 10 * 10 + n % 10) * 10 ^ acc.length + decVal acc := by ring
        _ = n * 10 ^ acc.length + decVal acc := by rw [hnm]

theorem decVal_natToString (n : Nat) : decVal (natToString n).data = n := by
  have h2 : (natToString n).data = Nat.toDigitsCore 10 (n + 1) n [] := rfl
  rw [h2, toDigitsCore_decVal (n + 1) n [] (Nat.lt_succ_self n)]
  simp [decVal]

theorem natToString_injective (a b : Nat) (h : natToString a = natToString b) : a = b := by
  have h2 := congrArg (fun s => decVal s.data) h
  simpa [decVal_natToString] using h2

/-- C7: the reward key construction `rewardsId` (YYYYMMDD day string
joined to the decimal athlete id with a hyphen) is a pure function —
equal inputs always give equal keys — and on eight-character day
strings it is injective: two pairs differing in the day or in the
athlete id never produce the same key. -/
theorem rewardsId_deterministic_injective (d1 d2 : String) (a1 a2 : Nat)
    (h1 : d1.length = 8) (h2 : d2.length = 8) :
    rewardsId d1 a1 = rewardsId d2 a2 ↔ (d1 = d2 ∧ a1 = a2) := by
  constructor
  · intro h
    have hdata : d1.data ++ ('-' :: (natToString a1).data) =
        d2.data ++ ('-' :: (natToString a2).data) := by
      have hd := congrArg String.data h
      simpa [rewardsId, String.data_append] using hd
    have hlen : d1.data.length = d2.data.length := by
      rw [show d1.data.length = d1.length from rfl, show d2.data.length = d2.length from rfl,
        h1, h2]
    obtain ⟨hd, ht⟩ := List.append_inj hdata hlen
    obtain ⟨-, ht2⟩ := List.cons.inj ht
    exact ⟨String.ext hd, natToString_injective a1 a2 (String.ext ht2)⟩
  · rintro ⟨rfl, rfl⟩
    rfl

/-- C7 witness: at concrete inputs: same pair gives the same key, and
changing the day (or the athlete id) changes the key. -/
theorem rewardsId_deterministic_injective_witness :
    ("20211103" : String).length = 8 ∧ ("20211104" : String).length = 8 ∧
    rewardsId "20211103" 94380856 = rewardsId "20211103" 94380856 ∧
    ¬ rewardsId "20211103" 94380856 = rewardsId "20211104" 94380856 :=
  ⟨rfl, rfl,
   (rewardsId_deterministic_injective "20211103" "20211103" 94380856 94380856 rfl rfl).mpr
     ⟨rfl, rfl⟩,
   fun hc =>
     absurd ((rewardsId_deterministic_injective "20211103" "20211104" 94380856 94380856
       rfl rfl).mp hc).1 (by decide)⟩

/-- C8: every webhook POST event that passes the shape check but has
`object_type ≠ "activity"` or `aspect_type ≠ "create"`, or whose
`owner_id` resolves to no user record, is answered 200 `EVENT_IGNORED`
and performs zero store writes: the database (both collections) and the
write log are returned unchanged. -/
theorem ignored_event_classes_no_write (now : DateTime) (db : Database)
    (ot : String) (oid : Nat) (asp : String) (own : Nat)
    (h : ot ≠ "activity" ∨ asp ≠ "create" ∨ getDoc (natToString own) db.users = none) :
    webhookEventHandler dbStore now ⟨some ot, some oid, some asp, some own⟩ (db, []) =
      ((db, []), ⟨200, RespBody.text "EVENT_IGNORED"⟩) := by
  by_cases hot : ot = "activity"
  · by_cases hasp : asp = "create"
    · subst hot; subst hasp
      rcases h with h | h | h
      · exact absurd rfl h
      · exact absurd rfl h
      · exact webhookEventHandler_db_unknown_user now db [] oid own h
    · simp [webhookEventHandler, hasp]
  · simp [webhookEventHandler, hot]

/-- C8 witness: a concrete `update` event on an empty store is ignored
with no write. -/
theorem ignored_event_classes_no_write_witness :
    webhookEventHandler dbStore ⟨2021, 11, 3, 1, 2, 3, "+00:00"⟩
        ⟨some "activity", some 5, some "update", some 7⟩ (⟨[], []⟩, []) =
      ((⟨[], []⟩, []), ⟨200, RespBody.text "EVENT_IGNORED"⟩) :=
  ignored_event_classes_no_write ⟨2021, 11, 3, 1, 2, 3, "+00:00"⟩ ⟨[], []⟩
    "activity" 5 "update" 7 (Or.inr (Or.inl (by decide)))

/-- C3: for every store oracle — including ones that throw on read or
write — and every POST event passing the initial shape check, the
handler's response status is 200, never 4xx/5xx; and whenever the try
block raises an exception, the response is exactly 200
`EVENT_IGNORED`. -/
theorem webhook_swallows_exceptions {σ : Type} (store : WebhookStore σ) (now : DateTime)
    (s : σ) (ot : String) (oid : Nat) (asp : String) (own : Nat) :
    (webhookEventHandler store now ⟨some ot, some oid, some asp, some own⟩ s).2.status = 200 ∧
    (∀ e s1, webhookEventTry store now oid own s = .error (e, s1) →
      (webhookEventHandler store now ⟨some ot, some oid, some asp, some own⟩ s).2 =
        ⟨200, RespBody.text "EVENT_IGNORED"⟩) := by
  constructor
  · by_cases hcond : ot ≠ "activity" ∨ asp ≠ "create"
    · simp [webhookEventHandler, hcond]
    · rcases htry : webhookEventTry store now oid own s with ⟨e, s1⟩ | ⟨s', r⟩
      · simp [webhookEventHandler, hcond, htry]
      · have hst := webhookEventTry_ok_status store now oid own s s' r htry
        simp [webhookEventHandler, hcond, htry, hst]
  · intro e s1 htry
    by_cases hcond : ot ≠ "activity" ∨ asp ≠ "create"
    · simp [webhookEventHandler, hcond]
    · simp [webhookEventHandler, hcond, htry]

/-- C3 witness: a concrete store that throws on every read: a valid
activity-create event is still answered 200 `EVENT_IGNORED`. -/
theorem webhook_swallows_exceptions_witness :
    (webhookEventHandler
        (⟨fun s _ => .error ("read failed", s),
          fun s _ => .error ("read failed", s),
          fun s _ _ => .error ("write failed", s)⟩ : WebhookStore Nat)
        ⟨2021, 11, 3, 1, 2, 3, "+00:00"⟩
        ⟨some "activity", some 5, some "create", some 7⟩ 0).2 =
      ⟨200, RespBody.text "EVENT_IGNORED"⟩ :=
  (webhook_swallows_exceptions
    (⟨fun s _ => .error ("read failed", s),
      fun s _ => .error ("read failed", s),
      fun s _ _ => .error ("write failed", s)⟩ : WebhookStore Nat)
    ⟨2021, 11, 3, 1, 2, 3, "+00:00"⟩ 0 "activity" 5 "create" 7).2 "read failed" 0 rfl

/-- C4: for every webhook GET request: absent `hub.mode` or
`hub.verify_token` gives 400; present but not (`subscribe`, configured
secret) gives 401; otherwise 200 with a JSON body carrying the supplied
`hub.challenge` value unmodified under key `"hub.challenge"`. -/
theorem subscription_get_verification (verifyToken : String) (q : SubQuery) :
    ((q.hubMode = none ∨ q.hubVerifyToken = none) →
      webhookSubscriptionHandler verifyToken q = sendStatus 400) ∧
    (∀ mode tok, q.hubMode = some mode → q.hubVerifyToken = some tok →
      (mode ≠ "subscribe" ∨ tok ≠ verifyToken) →
      webhookSubscriptionHandler verifyToken q = sendStatus 401) ∧
    (q.hubMode = some "subscribe" → q.hubVerifyToken = some verifyToken →
      webhookSubscriptionHandler verifyToken q =
        ⟨200, .json [("hub.challenge", q.hubChallenge)]⟩) := by
  obtain ⟨m, t, c⟩ := q
  refine ⟨?_, ?_, ?_⟩
  · intro h
    cases m with
    | none => cases t <;> rfl
    | some mv =>
      cases t with
      | none => rfl
      | some tv => simp at h
  · rintro mode tok rfl rfl h
    simp only [webhookSubscriptionHandler, if_pos h]
  · rintro rfl rfl
    simp [webhookSubscriptionHandler]

/-- C4 witness: at a concrete query, all three branches evaluate as the
theorem states. -/
theorem subscription_get_verification_witness :
    webhookSubscriptionHandler "secret"
      ⟨some "subscribe", some "secret", some "chal"⟩ =
      ⟨200, .json [("hub.challenge", some "chal")]⟩ :=
  (subscription_get_verification "secret"
    ⟨some "subscribe", some "secret", some "chal"⟩).2.2 rfl rfl

/-- C2 (code bug): with a store holding a linked record whose address
equals the queried (valid-format) address and a store query that
succeeds, a GET status request answers 404, not the 200 the claim
states: the handler tests the nonexistent `exists` property of the
where-query's snapshot (`exists` belongs to a document snapshot; the
query snapshot exposes `empty`/`size`), which is `undefined`, hence
falsy, for found and not-found alike. -/
theorem status_found_record_answers_404 :
    (status (fun _ => true) "GET"
        ⟨[("42", ⟨"ADDR", 42, "t", "r", 0, 0⟩)], []⟩ false ⟨some "ADDR"⟩).1 =
      sendStatus 404 ∧
    sendStatus 404 ≠ sendStatus 200 := by
  exact ⟨rfl, by decide⟩

/-- C5 counterexample: a link callback whose address-bearing `state`
parameter is missing, but which carries `error=access_denied`, is
answered 403, not the 400 the claim states for every request with a
missing/invalid address parameter. (No collaborator call is made.) -/
theorem address_gate_denied_counterexample :
    (link (fun _ => false) (fun _ => .error "rejected") (fun _ _ => .ok ()) 0
        ⟨some "access_denied", none, none, none⟩) = (sendStatus 403, []) ∧
    sendStatus 403 ≠ sendStatus 400 := by
  exact ⟨rfl, by decide⟩

/-- C5 (amended): for every GET status request, every authorize
request, and every link request that does not signal
`error=access_denied`, a missing or invalid-format address-bearing
parameter (`dhealth.address`, or `state` for link) is answered 400 with
zero collaborator calls performed. -/
theorem address_gate_rejects_before_collaborators (validateOk : String → Bool) :
    (∀ (db : Database) (storeFails : Bool) (q : StatusQuery),
      (q.dhealthAddress = none ∨
        ∃ a, q.dhealthAddress = some a ∧ validateOk a = false) →
      status validateOk "GET" db storeFails q = (sendStatus 400, [])) ∧
    (∀ (enc : String → String) (conf : StravaConf) (q : AuthQuery),
      (q.dhealthAddress = none ∨
        ∃ a, q.dhealthAddress = some a ∧ validateOk a = false) →
      authorize validateOk enc conf q = (sendStatus 400, [])) ∧
    (∀ (exchangeToken : String → Except String TokenResponse)
        (usersSet : String → LinkRecord → Except String Unit) (now : Nat) (q : LinkQuery),
      q.error ≠ some "access_denied" →
      (q.state = none ∨ ∃ a, q.state = some a ∧ validateOk a = false) →
      link validateOk exchangeToken usersSet now q = (sendStatus 400, [])) := by
  refine ⟨?_, ?_, ?_⟩
  · rintro db storeFails ⟨x⟩ (h | ⟨a, ha, hv⟩)
    · replace h : x = none := h
      subst h
      rfl
    · replace ha : x = some a := ha
      subst ha
      simp [status, hv]
  · rintro enc conf ⟨x⟩ (h | ⟨a, ha, hv⟩)
    · replace h : x = none := h
      subst h
      rfl
    · replace ha : x = some a := ha
      subst ha
      simp [authorize, hv]
  · rintro exchangeToken usersSet now ⟨e, c, s, st⟩ he (h | ⟨a, ha, hv⟩)
    · replace he : ¬ e = some "access_denied" := he
      replace h : st = none := h
      subst h
      simp only [link]
      rw [if_neg he]
    · replace he : ¬ e = some "access_denied" := he
      replace ha : st = some a := ha
      subst ha
      simp only [link]
      rw [if_neg he]
      cases c <;> cases s <;> simp [hv]

/-- C5 witness: concrete instantiations of all three amended branches:
an invalid address to status, a missing address to authorize, and an
invalid state to link each give 400 with an empty call log. -/
theorem address_gate_rejects_witness :
    status (fun _ => false) "GET" ⟨[], []⟩ false ⟨some "BAD"⟩ = (sendStatus 400, []) ∧
    authorize (fun _ => false) id ⟨"c", "s", "o", "w", "v"⟩ ⟨none⟩ = (sendStatus 400, []) ∧
    link (fun _ => false) (fun _ => .error "rejected") (fun _ _ => .ok ()) 0
        ⟨none, some "abc", some "activity:read", some "BAD"⟩ = (sendStatus 400, []) :=
  ⟨(address_gate_rejects_before_collaborators (fun _ => false)).1 ⟨[], []⟩ false ⟨some "BAD"⟩
      (Or.inr ⟨"BAD", rfl, rfl⟩),
   (address_gate_rejects_before_collaborators (fun _ => false)).2.1 id ⟨"c", "s", "o", "w", "v"⟩
      ⟨none⟩ (Or.inl rfl),
   (address_gate_rejects_before_collaborators (fun _ => false)).2.2
      (fun _ => .error "rejected") (fun _ _ => .ok ()) 0
      ⟨none, some "abc", some "activity:read", some "BAD"⟩ (by decide)
      (Or.inr ⟨"BAD", rfl, rfl⟩)⟩

/-- C6: the link callback: provider denial (`error=access_denied`)
gives 403 and missing `code`/`scope`/`state` gives 400, both with zero
collaborator calls; with valid parameters, a failed token exchange
gives 400, a failed store write gives 500, and on success the
LinkRecord keyed by the returned athlete id — address = the validated
state, the returned tokens and expiry, the current time as linkedAt —
is merge-written and the handler answers 200. -/
theorem link_callback_contract (validateOk : String → Bool)
    (exchangeToken : String → Except String TokenResponse)
    (usersSet : String → LinkRecord → Except String Unit)
    (now : Nat) (q : LinkQuery) :
    (q.error = some "access_denied" →
      link validateOk exchangeToken usersSet now q = (sendStatus 403, [])) ∧
    (q.error ≠ some "access_denied" →
      (q.code = none ∨ q.scope = none ∨ q.state = none) →
      link validateOk exchangeToken usersSet now q = (sendStatus 400, [])) ∧
    (∀ code scope state, q.error ≠ some "access_denied" →
      q.code = some code → q.scope = some scope → q.state = some state →
      validateOk state = true →
      (∀ e, exchangeToken code = .error e →
        link validateOk exchangeToken usersSet now q =
          (sendStatus 400, [.oauthTokenExchange code])) ∧
      (∀ tok, exchangeToken code = .ok tok →
        (∀ e, usersSet (natToString tok.athleteId) (mkLinkRecord state tok now) = .error e →
          link validateOk exchangeToken usersSet now q =
            (sendStatus 500, [.oauthTokenExchange code,
              .usersSetDoc (natToString tok.athleteId) (mkLinkRecord state tok now)])) ∧
        (usersSet (natToString tok.athleteId) (mkLinkRecord state tok now) = .ok () →
          link validateOk exchangeToken usersSet now q =
            (sendStatus 200, [.oauthTokenExchange code,
              .usersSetDoc (natToString tok.athleteId) (mkLinkRecord state tok now)])))) := by
  obtain ⟨e, c, s, st⟩ := q
  refine ⟨?_, ?_, ?_⟩
  · intro he
    replace he : e = some "access_denied" := he
    subst he
    rfl
  · intro he hmiss
    replace he : ¬ e = some "access_denied" := he
    simp only [link]
    rw [if_neg he]
    rcases hmiss with h | h | h
    · replace h : c = none := h
      subst h
      cases s <;> cases st <;> rfl
    · replace h : s = none := h
      subst h
      cases c <;> cases st <;> rfl
    · replace h : st = none := h
      subst h
      cases c <;> cases s <;> rfl
  · rintro code scope state he hc hs hst hv
    replace he : ¬ e = some "access_denied" := he
    replace hc : c = some code := hc
    replace hs : s = some scope := hs
    replace hst : st = some state := hst
    subst hc; subst hs; subst hst
    constructor
    · intro err hex
      simp [link, he, hv, hex]
    · intro tok hex
      constructor
      · intro err hw
        simp [link, he, hv, hex, hw]
      · intro hw
        simp [link, he, hv, hex, hw]

/-- C6 witness: the spec's example: a valid address as `state`, query
`code="abc"`, `scope="activity:read"`, and a token exchange returning
athlete id 42 and tokens `t`/`r`/123 produce HTTP 200 and a write of
`users/42` with the record `{athleteId := 42, address, accessToken :=
"t", refreshToken := "r", accessExpiresAt := 123, linkedAt := now}`. -/
theorem link_callback_contract_witness :
    link (fun a => a = "NCZMZ4DQGQKYFAAAAAAAAAAAAAAAAAAAAAAAAAAA")
        (fun c => if c = "abc" then .ok ⟨42, "t", "r", 123⟩ else .error "bad")
        (fun _ _ => .ok ()) 1000
        ⟨none, some "abc", some "activity:read",
          some "NCZMZ4DQGQKYFAAAAAAAAAAAAAAAAAAAAAAAAAAA"⟩ =
      (sendStatus 200, [.oauthTokenExchange "abc",
        .usersSetDoc "42"
          ⟨"NCZMZ4DQGQKYFAAAAAAAAAAAAAAAAAAAAAAAAAAA", 42, "t", "r", 123, 1000⟩]) := by
  have h := (link_callback_contract
      (fun a => a = "NCZMZ4DQGQKYFAAAAAAAAAAAAAAAAAAAAAAAAAAA")
      (fun c => if c = "abc" then .ok ⟨42, "t", "r", 123⟩ else .error "bad")
      (fun _ _ => .ok ()) 1000
      ⟨none, some "abc", some "activity:read",
        some "NCZMZ4DQGQKYFAAAAAAAAAAAAAAAAAAAAAAAAAAA"⟩).2.2
      "abc" "activity:read" "NCZMZ4DQGQKYFAAAAAAAAAAAAAAAAAAAAAAAAAAA"
      (by decide) rfl rfl rfl (by decide)
  have h2 := (h.2 ⟨42, "t", "r", 123⟩ rfl).2 rfl
  have hkey : natToString (42 : Nat) = "42" := rfl
  rw [hkey] at h2
  exact h2

/-- C10: a webhook GET request with `hub.mode=subscribe` and the
correct `hub.verify_token` but no `hub.challenge` parameter at all is
still accepted with 200, the JSON body's `hub.challenge` field carrying
the absent (undefined) value — presence of `hub.challenge` is never
checked. -/
theorem subscription_get_missing_challenge_accepted :
    webhookSubscriptionHandler "secret" ⟨some "subscribe", some "secret", none⟩ =
      ⟨200, .json [("hub.challenge", none)]⟩ := rfl

theorem webhookEvent_step_cases (now : DateTime) (data : EventBody) (db : Database) :
    (webhookEventHandler dbStore now data (db, [])).1.1 = db ∨
    ∃ rid rec, rec.isProcessed = false ∧ getDoc rid db.rewards = none ∧
      (webhookEventHandler dbStore now data (db, [])).1.1 = dbSetReward db rid rec := by
  obtain ⟨ot, oid, asp, own⟩ := data
  cases ot with
  | none => exact Or.inl rfl
  | some ot =>
  cases oid with
  | none => exact Or.inl rfl
  | some oid =>
  cases asp with
  | none => exact Or.inl rfl
  | some asp =>
  cases own with
  | none => exact Or.inl rfl
  | some own =>
  by_cases hcond : ot ≠ "activity" ∨ asp ≠ "create"
  · left
    simp [webhookEventHandler, hcond]
  · push_neg at hcond
    obtain ⟨hot, hasp⟩ := hcond
    subst hot; subst hasp
    cases hu : getDoc (natToString own) db.users with
    | none =>
      left
      rw [webhookEventHandler_db_unknown_user now db [] oid own hu]
    | some user =>
      cases hrid : getDoc (rewardsId (formatYYYYMMDD now) user.athleteId) db.rewards with
      | none =>
        right
        refine ⟨rewardsId (formatYYYYMMDD now) user.athleteId,
          mkRewardRecord user.address user.athleteId oid now, rfl, hrid, ?_⟩
        rw [webhookEventHandler_db_creates now db [] oid own user hu hrid]
      | some r0 =>
        left
        rw [webhookEventHandler_db_existing now db [] oid own user r0 hu hrid]

theorem webhookEvent_step_present (now : DateTime) (data : EventBody) (db : Database)
    (k : String) (r : RewardRecord) (h : getDoc k db.rewards = some r) :
    getDoc k ((webhookEventHandler dbStore now data (db, [])).1.1).rewards = some r := by
  rcases webhookEvent_step_cases now data db with hdb | ⟨rid, rec, -, habs, hdb⟩
  · rw [hdb]
    exact h
  · rw [hdb, getDoc_dbSetReward]
    have hk : ¬ k = rid := fun hc => by
      rw [hc, habs] at h
      exact Option.noConfusion h
    rw [if_neg hk]
    exact h

theorem getDoc_sweepRun (f : RewardRecord → Bool) (db : Database) (k : String) :
    getDoc k (sweepRun f db).rewards = (getDoc k db.rewards).map (sweepOne f) := by
  simp [sweepRun, getDoc_map_snd]

theorem sysStep_preserves_processed (db : Database) (op : SysOp) (k : String)
    (r : RewardRecord) (h : getDoc k db.rewards = some r) (hp : r.isProcessed = true) :
    getDoc k (sysStep db op).rewards = some r := by
  cases op with
  | webhookEvent now data => exact webhookEvent_step_present now data db k r h
  | linkWrite docId record => exact h
  | sweep f =>
    show getDoc k (sweepRun f db).rewards = some r
    rw [getDoc_sweepRun, h]
    simp [sweepOne, hp]

theorem runSys_preserves_processed (ops : List SysOp) :
    ∀ (db : Database) (k : String) (r : RewardRecord),
    getDoc k db.rewards = some r → r.isProcessed = true →
    getDoc k (runSys db ops).rewards = some r := by
  induction ops with
  | nil => exact fun db k r h _ => h
  | cons op t ih =>
    intro db k r h hp
    exact ih (sysStep db op) k r (sysStep_preserves_processed db op k r h hp) hp

/-- C9: the `isProcessed` flag of a RewardRecord: it is false at
creation; a false-to-true flip can only be performed by a sweeper run,
only on a record whose payout the sweeper has just confirmed
successful, and changes nothing else; and a processed record is never
changed again by any later operation (so the flip happens at most
once, and no other operation ever sets or clears the flag). The
sweeper's payout execution is modelled from the spec (see `sweepOne`,
`sweepRun`); webhook ingestion and link writes are the source
handlers. -/
theorem isProcessed_flag_contract :
    (∀ (db : Database) (op : SysOp) (k : String) (r : RewardRecord),
      getDoc k db.rewards = none →
      getDoc k (sysStep db op).rewards = some r → r.isProcessed = false) ∧
    (∀ (db : Database) (op : SysOp) (k : String) (r r' : RewardRecord),
      getDoc k db.rewards = some r →
      getDoc k (sysStep db op).rewards = some r' →
      r.isProcessed = false → r'.isProcessed = true →
      ∃ payoutOk, op = SysOp.sweep payoutOk ∧ payoutOk r = true ∧
        r' = { r with isProcessed := true }) ∧
    (∀ (db : Database) (ops : List SysOp) (k : String) (r : RewardRecord),
      getDoc k db.rewards = some r → r.isProcessed = true →
      getDoc k (runSys db ops).rewards = some r) := by
  refine ⟨?_, ?_, fun db ops => runSys_preserves_processed ops db⟩
  · intro db op k r hnone hsome
    cases op with
    | webhookEvent now data =>
      rcases webhookEvent_step_cases now data db with hdb | ⟨rid, rec, hproc, -, hdb⟩
      · rw [show sysStep db (SysOp.webhookEvent now data) =
            (webhookEventHandler dbStore now data (db, [])).1.1 from rfl, hdb, hnone] at hsome
        exact Option.noConfusion hsome
      · rw [show sysStep db (SysOp.webhookEvent now data) =
            (webhookEventHandler dbStore now data (db, [])).1.1 from rfl, hdb,
          getDoc_dbSetReward] at hsome
        by_cases hk : k = rid
        · rw [if_pos hk] at hsome
          rw [← Option.some.inj hsome]
          exact hproc
        · rw [if_neg hk, hnone] at hsome
          exact Option.noConfusion hsome
    | linkWrite docId record =>
      rw [show sysStep db (SysOp.linkWrite docId record) = dbSetUser db docId record from rfl]
        at hsome
      rw [show (dbSetUser db docId record).rewards = db.rewards from rfl, hnone] at hsome
      exact Option.noConfusion hsome
    | sweep f =>
      rw [show sysStep db (SysOp.sweep f) = sweepRun f db from rfl, getDoc_sweepRun, hnone]
        at hsome
      exact Option.noConfusion hsome
  · intro db op k r r' h hsome hfalse htrue
    cases op with
    | webhookEvent now data =>
      rw [show sysStep db (SysOp.webhookEvent now data) =
          (webhookEventHandler dbStore now data (db, [])).1.1 from rfl,
        webhookEvent_step_present now data db k r h] at hsome
      rw [← Option.some.inj hsome, hfalse] at htrue
      exact Bool.noConfusion htrue
    | linkWrite docId record =>
      rw [show sysStep db (SysOp.linkWrite docId record) = dbSetUser db docId record from rfl]
        at hsome
      rw [show (dbSetUser db docId record).rewards = db.rewards from rfl, h] at hsome
      rw [← Option.some.inj hsome, hfalse] at htrue
      exact Bool.noConfusion htrue
    | sweep f =>
      rw [show sysStep db (SysOp.sweep f) = sweepRun f db from rfl, getDoc_sweepRun, h]
        at hsome
      replace hsome : sweepOne f r = r' := Option.some.inj hsome
      by_cases hf : f r = true
      · refine ⟨f, rfl, hf, ?_⟩
        rw [← hsome]
        simp [sweepOne, hfalse, hf]
      · rw [← hsome] at htrue
        simp [sweepOne, hf] at htrue
        rw [hfalse] at htrue
        exact Bool.noConfusion htrue

/-- C9 witness: the three conjuncts at concrete inputs: a webhook event
creates a record with the flag false; a sweeper run with a succeeding
payout oracle flips it; and a processed record survives a later trace
unchanged. -/
theorem isProcessed_flag_contract_witness :
    ((mkRewardRecord "ADDR" 7 5 ⟨2021, 11, 3, 1, 2, 3, "+00:00"⟩).isProcessed = false) ∧
    (∃ payoutOk, SysOp.sweep (fun _ => true) = SysOp.sweep payoutOk ∧
      payoutOk (mkRewardRecord "ADDR" 7 5 ⟨2021, 11, 3, 1, 2, 3, "+00:00"⟩) = true ∧
      { mkRewardRecord "ADDR" 7 5 ⟨2021, 11, 3, 1, 2, 3, "+00:00"⟩ with isProcessed := true } =
        { mkRewardRecord "ADDR" 7 5 ⟨2021, 11, 3, 1, 2, 3, "+00:00"⟩ with
          isProcessed := true }) ∧
    getDoc "20211103-7"
        (runSys ⟨[], [("20211103-7",
          { mkRewardRecord "ADDR" 7 5 ⟨2021, 11, 3, 1, 2, 3, "+00:00"⟩ with
            isProcessed := true })]⟩
          [SysOp.sweep (fun _ => true),
           SysOp.webhookEvent ⟨2021, 11, 3, 2, 2, 3, "+00:00"⟩
             ⟨some "activity", some 9, some "create", some 7⟩]).rewards =
      some { mkRewardRecord "ADDR" 7 5 ⟨2021, 11, 3, 1, 2, 3, "+00:00"⟩ with
        isProcessed := true } :=
  ⟨isProcessed_flag_contract.1
      ⟨[("7", ⟨"ADDR", 7, "t", "r", 0, 0⟩)], []⟩
      (SysOp.webhookEvent ⟨2021, 11, 3, 1, 2, 3, "+00:00"⟩
        ⟨some "activity", some 5, some "create", some 7⟩)
      "20211103-7" (mkRewardRecord "ADDR" 7 5 ⟨2021, 11, 3, 1, 2, 3, "+00:00"⟩) rfl rfl,
   isProcessed_flag_contract.2.1
      ⟨[], [("20211103-7", mkRewardRecord "ADDR" 7 5 ⟨2021, 11, 3, 1, 2, 3, "+00:00"⟩)]⟩
      (SysOp.sweep (fun _ => true)) "20211103-7"
      (mkRewardRecord "ADDR" 7 5 ⟨2021, 11, 3, 1, 2, 3, "+00:00"⟩)
      { mkRewardRecord "ADDR" 7 5 ⟨2021, 11, 3, 1, 2, 3, "+00:00"⟩ with isProcessed := true }
      rfl rfl rfl rfl,
   isProcessed_flag_contract.2.2
      ⟨[], [("20211103-7",
        { mkRewardRecord "ADDR" 7 5 ⟨2021, 11, 3, 1, 2, 3, "+00:00"⟩ with
          isProcessed := true })]⟩
      [SysOp.sweep (fun _ => true),
       SysOp.webhookEvent ⟨2021, 11, 3, 2, 2, 3, "+00:00"⟩
         ⟨some "activity", some 9, some "create", some 7⟩]
      "20211103-7"
      { mkRewardRecord "ADDR" 7 5 ⟨2021, 11, 3, 1, 2, 3, "+00:00"⟩ with isProcessed := true }
      rfl rfl⟩

end HealthToEarn
